import Mathlib

/-!
Shallow embedding of the `husker-du/terratest` repository:
- `src/modules/aws/ssm.go` (SSM parameter-store accessors), and
- `src/main.go` (Terraform apply/destroy test-lifecycle orchestrator).

External effects (AWS SDK calls, the terraform CLI) are modelled by an
environment/oracle that fixes the outcome of each external call, and each
embedded function returns, alongside its Go return values, the trace of
external calls it performed, so that temporal claims about which calls
happen can be stated and proved.
-/

namespace Terratest

/-- Embeds the relevant part of the AWS SDK struct `ssm.Parameter`:
a possibly-nil pointer to the parameter value. -/
structure Parameter where
  Value : Option String
deriving DecidableEq

/-- Embeds `ssm.GetParameterInput` as constructed in `GetParameterE`. -/
structure GetParameterInput where
  Name : String
  WithDecryption : Bool
deriving DecidableEq

/-- Embeds `ssm.GetParameterOutput`: a possibly-nil pointer to a `Parameter`. -/
structure GetParameterOutput where
  Parameter : Option Parameter
deriving DecidableEq

/-- Embeds `ssm.PutParameterInput` as constructed in `PutParameterE`.
Go's field `Type` is spelled `«Type»` because `Type` is reserved in Lean. -/
structure PutParameterInput where
  Name : String
  Description : String
  Value : String
  «Type» : String
deriving DecidableEq

/-- Embeds `ssm.PutParameterOutput`: a possibly-nil pointer to the version. -/
structure PutParameterOutput where
  Version : Option Int
deriving DecidableEq

/-- Trace events: the external SSM/SDK calls an accessor performs,
with the exact request values it sends. -/
inductive SsmEvent where
  | newClientCall (region : String)
  | getParameterCall (input : GetParameterInput)
  | putParameterCall (input : PutParameterInput)
deriving DecidableEq

/-- Outcome of running a Go function: a normal return value, a run-time
nil-pointer dereference (panic), or a `require`-triggered test failure. -/
inductive GoOutcome (α : Type) where
  | ret (a : α)
  | nilPanic
  | testFailed (msg : String)
deriving DecidableEq

/-- Oracle for the external world `ssm.go` talks to: the outcome of client
construction (`NewSsmClientE`, i.e. `NewAuthenticatedSession`) and of the two
SDK calls. `none` / `Except.ok` means the external call succeeded. -/
structure SsmEnv where
  newClientErr : Option String
  getParameter : GetParameterInput → Except String GetParameterOutput
  putParameter : PutParameterInput → Except String PutParameterOutput

/-- Embeds `NewSsmClientE`: builds an authenticated session and client,
returning `(client, nil)` or `(nil, err)`. The client handle itself is
opaque; only the success/failure is observable. -/
def NewSsmClientE (env : SsmEnv) (region : String) : List SsmEvent × Option String :=
  ([SsmEvent.newClientCall region], env.newClientErr)

/-- The `ssm.GetParameterInput` literal built in `GetParameterE`:
`{Name: aws.String(keyName), WithDecryption: aws.Bool(true)}`. -/
def getParameterInput (keyName : String) : GetParameterInput :=
  { Name := keyName, WithDecryption := true }

/-- The `ssm.PutParameterInput` literal built in `PutParameterE`:
name, description, value, and type fixed to the string "SecureString". -/
def putParameterInput (keyName keyDescription keyValue : String) : PutParameterInput :=
  { Name := keyName, Description := keyDescription, Value := keyValue
    «Type» := "SecureString" }

/-- Embeds `GetParameterE` from `src/modules/aws/ssm.go`. Returns the trace
of external calls and the Go result `(string, error)`; the dereferences
`*resp.Parameter` and `*parameter.Value` are modelled totally, with a nil
pointer producing the `nilPanic` outcome. -/
def GetParameterE (env : SsmEnv) (awsRegion keyName : String) :
    List SsmEvent × GoOutcome (String × Option String) :=
  let client := NewSsmClientE env awsRegion
  match client.2 with
  | some err => (client.1, .ret ("", some err))
  | none =>
    let req := getParameterInput keyName
    let tr := client.1 ++ [SsmEvent.getParameterCall req]
    match env.getParameter req with
    | .error err => (tr, .ret ("", some err))
    | .ok resp =>
      match resp.Parameter with
      | none => (tr, .nilPanic)
      | some parameter =>
        match parameter.Value with
        | none => (tr, .nilPanic)
        | some v => (tr, .ret (v, none))

/-- Embeds `PutParameterE` from `src/modules/aws/ssm.go`. Returns the trace
of external calls and the Go result `(int64, error)`; the dereference
`*resp.Version` is modelled totally, with a nil pointer producing `nilPanic`. -/
def PutParameterE (env : SsmEnv) (awsRegion keyName keyDescription keyValue : String) :
    List SsmEvent × GoOutcome (Int × Option String) :=
  let client := NewSsmClientE env awsRegion
  match client.2 with
  | some err => (client.1, .ret (0, some err))
  | none =>
    let req := putParameterInput keyName keyDescription keyValue
    let tr := client.1 ++ [SsmEvent.putParameterCall req]
    match env.putParameter req with
    | .error err => (tr, .ret (0, some err))
    | .ok resp =>
      match resp.Version with
      | none => (tr, .nilPanic)
      | some v => (tr, .ret (v, none))

/-- Embeds `GetParameter`: calls `GetParameterE`, then `require.NoError`,
which fails the running test when the error is non-nil. -/
def GetParameter (env : SsmEnv) (awsRegion keyName : String) :
    List SsmEvent × GoOutcome String :=
  let r := GetParameterE env awsRegion keyName
  match r.2 with
  | .ret (v, none) => (r.1, .ret v)
  | .ret (_, some e) => (r.1, .testFailed e)
  | .nilPanic => (r.1, .nilPanic)
  | .testFailed m => (r.1, .testFailed m)

/-- Embeds `PutParameter`: calls `PutParameterE`, then `require.NoError`,
which fails the running test when the error is non-nil. -/
def PutParameter (env : SsmEnv) (awsRegion keyName keyDescription keyValue : String) :
    List SsmEvent × GoOutcome Int :=
  let r := PutParameterE env awsRegion keyName keyDescription keyValue
  match r.2 with
  | .ret (v, none) => (r.1, .ret v)
  | .ret (_, some e) => (r.1, .testFailed e)
  | .nilPanic => (r.1, .nilPanic)
  | .testFailed m => (r.1, .testFailed m)

/-- One parameter as held by the remote store. -/
structure StoredParam where
  name : String
  value : String
  version : Int
deriving DecidableEq

/-- Modelled from the spec: the remote parameter-store service (AWS SSM, not
part of the repository) answering a get-parameter request — a named
parameter is "read on demand"; a missing name is rejected by the remote
service and surfaced as an error. -/
def serviceGet (store : List StoredParam) (input : GetParameterInput) :
    Except String GetParameterOutput :=
  match store.find? (fun p => p.name == input.Name) with
  | some p => .ok { Parameter := some { Value := some p.value } }
  | none => .error "ParameterNotFound"

/-- Modelled from the spec: the remote parameter-store service answering a
put-parameter request — "created on first store, version-incremented on
each update". Returns the new version and the updated store. -/
def servicePut (store : List StoredParam) (input : PutParameterInput) :
    Except String (PutParameterOutput × List StoredParam) :=
  match store.find? (fun p => p.name == input.Name) with
  | some p =>
      .ok ({ Version := some (p.version + 1) },
        { name := input.Name, value := input.Value, version := p.version + 1 } ::
          store.filter (fun q => q.name != input.Name))
  | none =>
      .ok ({ Version := some 1 },
        { name := input.Name, value := input.Value, version := 1 } :: store)

/-- The SSM oracle induced by a concrete store state under the
spec-modelled service semantics, with client construction succeeding. -/
def storeEnv (store : List StoredParam) : SsmEnv :=
  { newClientErr := none
    getParameter := serviceGet store
    putParameter := fun i => (servicePut store i).map Prod.fst }

/-- The store state after the put request that `PutParameterE` sends for
`(key, desc, value)` has been applied by the spec-modelled service. -/
def storeAfterPut (store : List StoredParam) (key desc value : String) :
    List StoredParam :=
  match servicePut store (putParameterInput key desc value) with
  | .ok (_, s) => s
  | .error _ => store

/-! ## Embedding of `src/main.go` -/

/-- Embeds `util.KeyPair` as produced by `util.GenerateRSAKeyPair`. -/
structure KeyPair where
  PrivateKey : String
  PublicKey : String
deriving DecidableEq

/-- Oracle for the external world `TerraformApply` talks to: the random
region and unique id, and the outcome of each fallible external call.
`none` means the call succeeded. -/
structure TFEnv where
  region : String
  id : String
  genKeyPairResult : Except String KeyPair
  bucketCheckErr : Option String
  applyErr : Option String
  applyWithRetryErr : Option String
  destroyErr : Option String

/-- Trace events: the external calls `TerraformApply` and
`TerraformDestroyHelper` perform, in order. -/
inductive TFEvent where
  | createEC2KeyPair (region id publicKey : String)
  | deleteEC2KeyPair (region id : String)
  | assertS3BucketExists (region bucket : String)
  | configureRemoteState (templatePath bucket key region : String)
  | applyCall (templatePath : String) (vars : List (String × String))
  | applyWithRetryCall (templatePath : String) (vars : List (String × String))
  | destroyCall (templatePath : String) (vars : List (String × String))
  | warnDestroyFailed (templatePath testName errMsg : String)
deriving DecidableEq

/-- Modelled from the spec: the name of the designated remote-state S3
bucket, a repository constant defined outside the provided sources. -/
def TF_REMOTE_STATE_S3_BUCKET_NAME : String := "terraform-remote-state"

/-- Modelled from the spec: the region of the designated remote-state S3
bucket, a repository constant defined outside the provided sources. -/
def TF_REMOTE_STATE_S3_BUCKET_REGION : String := "us-east-1"

/-- The error message `TerraformApply` builds when `AssertS3BucketExists`
fails: it names only the bucket and the region, never the underlying
error. -/
def bucketMissingMsg : String :=
  "Test failed because the S3 Bucket '" ++ TF_REMOTE_STATE_S3_BUCKET_NAME ++
    "' does not exist in the '" ++ TF_REMOTE_STATE_S3_BUCKET_REGION ++ "' region.\n"

/-- Embeds `TerraformDestroyHelper` from `src/main.go`: it invokes
`terraform.Destroy` and, on failure, only prints a warning naming the
template path, the test name and the error text; its Go return type is
void, so it returns only its trace and can propagate no error. -/
def TerraformDestroyHelper (testName templatePath : String)
    (vars : List (String × String)) (env : TFEnv) : List TFEvent :=
  TFEvent.destroyCall templatePath vars ::
    match env.destroyErr with
    | some e => [TFEvent.warnDestroyFailed templatePath testName e]
    | none => []

/-- Embeds `TerraformApply` from `src/main.go`. Go `defer` statements are
modelled by appending the deferred calls, in LIFO registration order, to
the trace on every exit path reached after their registration: the
key-pair deletion is registered right after `CreateEC2KeyPair`, and the
destroy helper right after the apply attempt. Returns the trace of
external calls and the Go `error` result. -/
def TerraformApply (testName templatePath : String) (vars : List (String × String))
    (attemptTerraformRetry : Bool) (env : TFEnv) : List TFEvent × Option String :=
  match env.genKeyPairResult with
  | .error e => ([], some ("Failed to generate keypair: " ++ e ++ "\n"))
  | .ok keyPair =>
    let tr := [TFEvent.createEC2KeyPair env.region env.id keyPair.PublicKey]
    let deferred1 := [TFEvent.deleteEC2KeyPair env.region env.id]
    let tr := tr ++
      [TFEvent.assertS3BucketExists TF_REMOTE_STATE_S3_BUCKET_REGION
        TF_REMOTE_STATE_S3_BUCKET_NAME]
    match env.bucketCheckErr with
    | some _ => (tr ++ deferred1, some bucketMissingMsg)
    | none =>
      let tr := tr ++
        [TFEvent.configureRemoteState templatePath TF_REMOTE_STATE_S3_BUCKET_NAME
          (env.id ++ "/main.tf") TF_REMOTE_STATE_S3_BUCKET_REGION]
      let applyEvt :=
        if attemptTerraformRetry then TFEvent.applyWithRetryCall templatePath vars
        else TFEvent.applyCall templatePath vars
      let applyResult :=
        if attemptTerraformRetry then env.applyWithRetryErr else env.applyErr
      let tr := tr ++ [applyEvt]
      let deferredAll := TerraformDestroyHelper testName templatePath vars env ++ deferred1
      match applyResult with
      | some e => (tr ++ deferredAll, some ("Failed to terraform apply: " ++ e ++ "\n"))
      | none => (tr ++ deferredAll, none)

/-- Whether a trace contains an apply attempt (`terraform.Apply` or
`terraform.ApplyWithRetry`). -/
def applyAttempted (trace : List TFEvent) : Bool :=
  trace.any fun e =>
    match e with
    | .applyCall _ _ => true
    | .applyWithRetryCall _ _ => true
    | _ => false

/-- The number of `terraform.Destroy` invocations in a trace. -/
def countDestroy (trace : List TFEvent) : Nat :=
  (trace.filter fun e =>
    match e with
    | .destroyCall _ _ => true
    | _ => false).length

/-- Whether a trace contains a `CreateEC2KeyPair` invocation. -/
def keyPairCreated (trace : List TFEvent) : Bool :=
  trace.any fun e =>
    match e with
    | .createEC2KeyPair _ _ _ => true
    | _ => false

/-! ## Helper lemmas -/

/-- The trace of `GetParameterE` is either the failed client construction
alone, or the client construction followed by the one get-parameter call
it sends. -/
theorem getParameterE_trace_shape (env : SsmEnv) (r key : String) :
    (GetParameterE env r key).1 = [SsmEvent.newClientCall r] ∨
    (GetParameterE env r key).1 =
      [SsmEvent.newClientCall r, SsmEvent.getParameterCall (getParameterInput key)] := by
  obtain ⟨nc, g, p⟩ := env
  cases nc with
  | some e => left; rfl
  | none =>
    cases hg : g (getParameterInput key) with
    | error e => right; simp [GetParameterE, NewSsmClientE, hg]
    | ok resp =>
      cases hp : resp.Parameter with
      | none => right; simp [GetParameterE, NewSsmClientE, hg, hp]
      | some parameter =>
        cases hv : parameter.Value with
        | none => right; simp [GetParameterE, NewSsmClientE, hg, hp, hv]
        | some v => right; simp [GetParameterE, NewSsmClientE, hg, hp, hv]

/-- The trace of `PutParameterE` is either the failed client construction
alone, or the client construction followed by the one put-parameter call
it sends. -/
theorem putParameterE_trace_shape (env : SsmEnv) (r key desc value : String) :
    (PutParameterE env r key desc value).1 = [SsmEvent.newClientCall r] ∨
    (PutParameterE env r key desc value).1 =
      [SsmEvent.newClientCall r,
        SsmEvent.putParameterCall (putParameterInput key desc value)] := by
  obtain ⟨nc, g, p⟩ := env
  cases nc with
  | some e => left; rfl
  | none =>
    cases hg : p (putParameterInput key desc value) with
    | error e => right; simp [PutParameterE, NewSsmClientE, hg]
    | ok resp =>
      cases hv : resp.Version with
      | none => right; simp [PutParameterE, NewSsmClientE, hg, hv]
      | some v => right; simp [PutParameterE, NewSsmClientE, hg, hv]

/-! ## Claim theorems -/

/-- C4: every parameter write and read uses encryption: every get-parameter
request `GetParameterE` sends has `WithDecryption` set to true, and every
put-parameter request `PutParameterE` sends has `Type` fixed to
"SecureString". -/
theorem ssm_requests_always_encrypted (env : SsmEnv) (r key desc value : String) :
    (∀ input, SsmEvent.getParameterCall input ∈ (GetParameterE env r key).1 →
      input.WithDecryption = true) ∧
    (∀ input, SsmEvent.putParameterCall input ∈ (PutParameterE env r key desc value).1 →
      input.«Type» = "SecureString") := by
  constructor
  · intro input hmem
    rcases getParameterE_trace_shape env r key with h | h <;> rw [h] at hmem <;>
      simp at hmem
    rw [hmem]
    rfl
  · intro input hmem
    rcases putParameterE_trace_shape env r key desc value with h | h <;> rw [h] at hmem <;>
      simp at hmem
    rw [hmem]
    rfl

/-- C4 witness: at a concrete environment the requests are actually sent and
carry the encryption settings. -/
theorem ssm_requests_always_encrypted_witness :
    (getParameterInput "k").WithDecryption = true ∧
    (putParameterInput "k" "d" "v").«Type» = "SecureString" :=
  ⟨(ssm_requests_always_encrypted (storeEnv []) "r" "k" "d" "v").1
      (getParameterInput "k") (by decide),
    (ssm_requests_always_encrypted (storeEnv []) "r" "k" "d" "v").2
      (putParameterInput "k" "d" "v") (by decide)⟩

/-- C6: put/get round-trip over the spec-modelled store: after a successful
`PutParameterE` of `value` under `key`, with no intervening external
mutation, `GetParameterE` on `key` returns exactly `value` and no error. -/
theorem put_get_roundtrip (store : List StoredParam) (r1 r2 key desc value : String)
    (v : Int)
    (_hput : (PutParameterE (storeEnv store) r1 key desc value).2 = .ret (v, none)) :
    (GetParameterE (storeEnv (storeAfterPut store key desc value)) r2 key).2 =
      .ret (value, none) := by
  unfold storeAfterPut servicePut
  cases hf : store.find? (fun p => p.name == (putParameterInput key desc value).Name) with
  | some p =>
    simp only [hf]
    simp [GetParameterE, NewSsmClientE, storeEnv, serviceGet, getParameterInput,
      putParameterInput, List.find?]
  | none =>
    simp only [hf]
    simp [GetParameterE, NewSsmClientE, storeEnv, serviceGet, getParameterInput,
      putParameterInput, List.find?]

/-- C6 witness: round-trip at a concrete store, key and value. -/
theorem put_get_roundtrip_witness :
    (GetParameterE (storeEnv (storeAfterPut [] "k" "d" "v")) "r2" "k").2 =
      .ret ("v", none) :=
  put_get_roundtrip [] "r1" "r2" "k" "d" "v" 1 (by decide)

/-- C7: the fail-fast variants refine the error-returning variants: whenever
the E-variant returns a value without error, the non-E variant returns that
same value; whenever the E-variant returns an error, the non-E variant
fails the running test. -/
theorem failfast_refines_e_variants (env : SsmEnv) (r key desc value : String) :
    (∀ v, (GetParameterE env r key).2 = .ret (v, none) →
      (GetParameter env r key).2 = .ret v) ∧
    (∀ v e, (GetParameterE env r key).2 = .ret (v, some e) →
      (GetParameter env r key).2 = .testFailed e) ∧
    (∀ n, (PutParameterE env r key desc value).2 = .ret (n, none) →
      (PutParameter env r key desc value).2 = .ret n) ∧
    (∀ n e, (PutParameterE env r key desc value).2 = .ret (n, some e) →
      (PutParameter env r key desc value).2 = .testFailed e) := by
  refine ⟨fun v h => ?_, fun v e h => ?_, fun n h => ?_, fun n e h => ?_⟩ <;>
    simp [GetParameter, PutParameter, h]

/-- C7 witness: concrete refinement instances for get and put. -/
theorem failfast_refines_e_variants_witness :
    (GetParameter (storeEnv [⟨"k", "v", 1⟩]) "r" "k").2 = .ret "v" ∧
    (PutParameter (storeEnv []) "r" "k" "d" "v").2 = .ret 1 :=
  ⟨(failfast_refines_e_variants (storeEnv [⟨"k", "v", 1⟩]) "r" "k" "d" "v").1
      "v" (by decide),
    (failfast_refines_e_variants (storeEnv []) "r" "k" "d" "v").2.2.1
      1 (by decide)⟩

/-- C8: error results carry the zero payload: a non-nil error from
`GetParameterE` comes with the empty string, and a non-nil error from
`PutParameterE` comes with version 0. -/
theorem error_results_carry_zero_payload (env : SsmEnv) (r key desc value : String)
    (v : String) (n : Int) (e e' : String) :
    ((GetParameterE env r key).2 = .ret (v, some e) → v = "") ∧
    ((PutParameterE env r key desc value).2 = .ret (n, some e') → n = 0) := by
  obtain ⟨nc, g, p⟩ := env
  constructor
  · intro h
    cases nc with
    | some err => simp [GetParameterE, NewSsmClientE] at h; exact h.1.symm
    | none =>
      cases hg : g (getParameterInput key) with
      | error err =>
        simp [GetParameterE, NewSsmClientE, hg] at h
        exact h.1.symm
      | ok resp =>
        cases hp : resp.Parameter with
        | none => simp [GetParameterE, NewSsmClientE, hg, hp] at h
        | some parameter =>
          cases hv : parameter.Value with
          | none => simp [GetParameterE, NewSsmClientE, hg, hp, hv] at h
          | some w => simp [GetParameterE, NewSsmClientE, hg, hp, hv] at h
  · intro h
    cases nc with
    | some err => simp [PutParameterE, NewSsmClientE] at h; exact h.1.symm
    | none =>
      cases hg : p (putParameterInput key desc value) with
      | error err =>
        simp [PutParameterE, NewSsmClientE, hg] at h
        exact h.1.symm
      | ok resp =>
        cases hv : resp.Version with
        | none => simp [PutParameterE, NewSsmClientE, hg, hv] at h
        | some w => simp [PutParameterE, NewSsmClientE, hg, hv] at h

/-- C8 witness: at an environment whose client construction fails, the
returned payloads are the zero values. -/
theorem error_results_carry_zero_payload_witness :
    ("" : String) = "" ∧ (0 : Int) = 0 :=
  ⟨(error_results_carry_zero_payload
      ⟨some "auth failure", fun _ => .error "x", fun _ => .error "x"⟩
      "r" "k" "d" "v" "" 0 "auth failure" "auth failure").1 (by decide),
    (error_results_carry_zero_payload
      ⟨some "auth failure", fun _ => .error "x", fun _ => .error "x"⟩
      "r" "k" "d" "v" "" 0 "auth failure" "auth failure").2 (by decide)⟩

/-- C10: under the precondition that every error-free get-parameter response
carries a non-nil `Parameter` with a non-nil `Value`, the nil-dereference
(panic) branch of `GetParameterE` is unreachable. -/
theorem getParameterE_no_nil_panic (env : SsmEnv) (r key : String)
    (h : ∀ input resp, env.getParameter input = .ok resp →
      ∃ p, resp.Parameter = some p ∧ ∃ v, p.Value = some v) :
    (GetParameterE env r key).2 ≠ GoOutcome.nilPanic := by
  obtain ⟨nc, g, p⟩ := env
  cases nc with
  | some err => simp [GetParameterE, NewSsmClientE]
  | none =>
    cases hg : g (getParameterInput key) with
    | error err => simp [GetParameterE, NewSsmClientE, hg]
    | ok resp =>
      obtain ⟨param, hp, v, hv⟩ := h (getParameterInput key) resp hg
      simp [GetParameterE, NewSsmClientE, hg, hp, hv]

/-- C10 witness: a concrete environment whose successful responses always
carry non-nil `Parameter` and `Value`, at which `GetParameterE` does not
panic. -/
theorem getParameterE_no_nil_panic_witness :
    (GetParameterE
      ⟨none, fun _ => .ok ⟨some ⟨some "v"⟩⟩, fun _ => .ok ⟨some 1⟩⟩
      "r" "k").2 ≠ GoOutcome.nilPanic :=
  getParameterE_no_nil_panic
    ⟨none, fun _ => .ok ⟨some ⟨some "v"⟩⟩, fun _ => .ok ⟨some 1⟩⟩ "r" "k"
    (fun input resp heq => by
      simp only [Except.ok.injEq] at heq
      subst heq
      exact ⟨⟨some "v"⟩, rfl, "v", rfl⟩)

/-- A concrete environment in which key-pair generation succeeds and the
remote-state bucket check fails. -/
def envBucketFail : TFEnv :=
  { region := "us-west-2", id := "id123"
    genKeyPairResult := .ok ⟨"private-key", "public-key"⟩
    bucketCheckErr := some "connection refused"
    applyErr := none, applyWithRetryErr := none, destroyErr := none }

/-- C1 counterexample: in an execution where the bucket check returns an
error, `CreateEC2KeyPair` has nevertheless been invoked — the key pair is
created before the bucket check — refuting the claim as stated (no apply is
attempted, but a key pair is created). -/
theorem bucket_failure_still_creates_keypair_cex :
    envBucketFail.bucketCheckErr = some "connection refused" ∧
    TFEvent.assertS3BucketExists TF_REMOTE_STATE_S3_BUCKET_REGION
        TF_REMOTE_STATE_S3_BUCKET_NAME
      ∈ (TerraformApply "test" "tmpl" [] false envBucketFail).1 ∧
    keyPairCreated (TerraformApply "test" "tmpl" [] false envBucketFail).1 = true ∧
    applyAttempted (TerraformApply "test" "tmpl" [] false envBucketFail).1 = false := by
  decide

/-- C1 amended: if the bucket check fails, no apply is attempted (neither
`terraform.Apply` nor `terraform.ApplyWithRetry` is in the trace); however,
whenever the bucket check actually ran, `CreateEC2KeyPair` was already
invoked before it. -/
theorem bucket_failure_no_apply (tn tp : String) (vars : List (String × String))
    (retry : Bool) (env : TFEnv) (e : String)
    (h : env.bucketCheckErr = some e) :
    applyAttempted (TerraformApply tn tp vars retry env).1 = false ∧
    (TFEvent.assertS3BucketExists TF_REMOTE_STATE_S3_BUCKET_REGION
        TF_REMOTE_STATE_S3_BUCKET_NAME
      ∈ (TerraformApply tn tp vars retry env).1 →
      keyPairCreated (TerraformApply tn tp vars retry env).1 = true) := by
  obtain ⟨r, i, g, b, a, aw, de⟩ := env
  cases h
  cases g with
  | error ge => simp [TerraformApply, applyAttempted, keyPairCreated]
  | ok kp => simp [TerraformApply, applyAttempted, keyPairCreated]

/-- C1 witness: the amended property at a concrete environment with a
failing bucket check. -/
theorem bucket_failure_no_apply_witness :
    applyAttempted (TerraformApply "test" "tmpl" [] false envBucketFail).1 = false ∧
    (TFEvent.assertS3BucketExists TF_REMOTE_STATE_S3_BUCKET_REGION
        TF_REMOTE_STATE_S3_BUCKET_NAME
      ∈ (TerraformApply "test" "tmpl" [] false envBucketFail).1 →
      keyPairCreated (TerraformApply "test" "tmpl" [] false envBucketFail).1 = true) :=
  bucket_failure_no_apply "test" "tmpl" [] false envBucketFail "connection refused" rfl

/-- C2: a destroy failure does not change the error `TerraformApply`
returns: the returned error is the same whatever outcome
`terraform.Destroy` has, and `TerraformDestroyHelper` returns only its
trace — it has no error component to propagate to its caller. -/
theorem destroy_failure_does_not_change_apply_error (tn tp : String)
    (vars : List (String × String)) (retry : Bool) (env : TFEnv)
    (d d' : Option String) :
    (TerraformApply tn tp vars retry { env with destroyErr := d }).2 =
      (TerraformApply tn tp vars retry { env with destroyErr := d' }).2 := by
  obtain ⟨r, i, g, b, a, aw, de⟩ := env
  cases g <;> cases b <;> cases retry <;> cases a <;> cases aw <;> rfl

/-- C3: whenever an apply attempt is made — `terraform.Apply` or
`terraform.ApplyWithRetry` appears in the trace — `terraform.Destroy` is
subsequently invoked exactly once, whether the apply attempt succeeds or
fails. -/
theorem apply_implies_destroy_exactly_once (tn tp : String)
    (vars : List (String × String)) (retry : Bool) (env : TFEnv)
    (h : applyAttempted (TerraformApply tn tp vars retry env).1 = true) :
    countDestroy (TerraformApply tn tp vars retry env).1 = 1 := by
  obtain ⟨r, i, g, b, a, aw, de⟩ := env
  cases g with
  | error ge => simp [TerraformApply, applyAttempted] at h
  | ok kp =>
    cases b with
    | some be => simp [TerraformApply, applyAttempted] at h
    | none =>
      cases retry <;> cases a <;> cases aw <;> cases de <;>
        simp [TerraformApply, TerraformDestroyHelper, countDestroy]

/-- C3 witness: destroy appears exactly once at a concrete environment in
which an apply attempt is made (and, here, fails). -/
theorem apply_implies_destroy_exactly_once_witness :
    countDestroy (TerraformApply "test" "tmpl" []
      false
      { region := "us-west-2", id := "id123"
        genKeyPairResult := .ok ⟨"private-key", "public-key"⟩
        bucketCheckErr := none
        applyErr := some "apply blew up", applyWithRetryErr := none
        destroyErr := some "destroy blew up" }).1 = 1 :=
  apply_implies_destroy_exactly_once "test" "tmpl" [] false
    { region := "us-west-2", id := "id123"
      genKeyPairResult := .ok ⟨"private-key", "public-key"⟩
      bucketCheckErr := none
      applyErr := some "apply blew up", applyWithRetryErr := none
      destroyErr := some "destroy blew up" } (by decide)

/-- C5: if key-pair generation fails, `TerraformApply` returns the
key-generation error immediately and performs no external call at all: the
trace is empty, so `CreateEC2KeyPair`, the bucket check,
`ConfigureRemoteState`, apply and destroy are all not invoked. -/
theorem keygen_failure_no_remote_calls (tn tp : String)
    (vars : List (String × String)) (retry : Bool) (env : TFEnv) (e : String)
    (h : env.genKeyPairResult = .error e) :
    (TerraformApply tn tp vars retry env).1 = [] ∧
    (TerraformApply tn tp vars retry env).2 =
      some ("Failed to generate keypair: " ++ e ++ "\n") := by
  obtain ⟨r, i, g, b, a, aw, de⟩ := env
  cases h
  exact ⟨rfl, rfl⟩

/-- C5 witness: empty trace and the key-generation error at a concrete
environment whose key-pair generation fails. -/
theorem keygen_failure_no_remote_calls_witness :
    (TerraformApply "test" "tmpl" [] true
      { region := "us-west-2", id := "id123"
        genKeyPairResult := .error "entropy exhausted"
        bucketCheckErr := none, applyErr := none, applyWithRetryErr := none
        destroyErr := none }).1 = [] ∧
    (TerraformApply "test" "tmpl" [] true
      { region := "us-west-2", id := "id123"
        genKeyPairResult := .error "entropy exhausted"
        bucketCheckErr := none, applyErr := none, applyWithRetryErr := none
        destroyErr := none }).2 =
      some ("Failed to generate keypair: " ++ "entropy exhausted" ++ "\n") :=
  keygen_failure_no_remote_calls "test" "tmpl" [] true
    { region := "us-west-2", id := "id123"
      genKeyPairResult := .error "entropy exhausted"
      bucketCheckErr := none, applyErr := none, applyWithRetryErr := none
      destroyErr := none } "entropy exhausted" rfl

/-- C9: the bucket-check error masks its cause: whatever error the bucket
existence check produced, `TerraformApply` returns the fixed message
`bucketMissingMsg`, which names only the bucket and the region and does not
depend on the underlying error text. -/
theorem bucket_error_masks_cause (tn tp : String)
    (vars : List (String × String)) (retry : Bool) (env : TFEnv)
    (e : String) (kp : KeyPair)
    (hgen : env.genKeyPairResult = .ok kp)
    (hb : env.bucketCheckErr = some e) :
    (TerraformApply tn tp vars retry env).2 = some bucketMissingMsg := by
  obtain ⟨r, i, g, b, a, aw, de⟩ := env
  cases hgen
  cases hb
  rfl

/-- C9 witness: the fixed message is returned at a concrete environment
whose bucket check fails with an unrelated network error. -/
theorem bucket_error_masks_cause_witness :
    (TerraformApply "test" "tmpl" [] false envBucketFail).2 =
      some bucketMissingMsg :=
  bucket_error_masks_cause "test" "tmpl" [] false envBucketFail
    "connection refused" ⟨"private-key", "public-key"⟩ rfl rfl

end Terratest
